import Mathlib

/-!
Verification development for the MISP → STIX2 translation engine
(`app/files/scripts/stix2/misp2stix2.py`, class `StixBuilder`).

The Python code is shallowly embedded: the builder's mutable instance state
becomes the record `BuilderState`, every translated method becomes a pure
state-passing function, Python dictionaries become association lists over
`String` keys, and Python exceptions become `Except`/`Option` results.
Static mapping tables that live in the separate (absent) file
`misp2stix2_mapping.py` are either modelled from the specification's words
(marked `Modelled from the spec:`) or taken as parameters.
-/

namespace Misp2Stix2

/-- Association-list lookup with decidable `String` keys; the embedding of a
Python `dict[...]` read (`d[k]` / `k in d`). -/
def lookupA {α : Type} (k : String) : List (String × α) → Option α
  | [] => none
  | (k', v) :: rest => if k' = k then some v else lookupA k rest

/-- Association-list write; the embedding of a Python `dict` assignment
`d[k] = v`: replaces the value of an existing key in place, otherwise
appends the new entry at the end (Python dicts keep insertion order). -/
def updA {α : Type} (k : String) (v : α) : List (String × α) → List (String × α)
  | [] => [(k, v)]
  | (k', v') :: rest => if k' = k then (k, v) :: rest else (k', v') :: updA k v rest

/-- How many entries of the association list carry the key `k` (a Python dict
always has zero or one). -/
def countKey {α : Type} (k : String) (l : List (String × α)) : Nat :=
  (l.filter (fun p => p.1 = k)).length

theorem lookupA_updA_self {α : Type} (k : String) (v : α) (l : List (String × α)) :
    lookupA k (updA k v l) = some v := by
  induction l with
  | nil => simp [updA, lookupA]
  | cons p rest ih =>
      by_cases h : p.1 = k
      · simp [updA, lookupA, h]
      · simp [updA, lookupA, h, ih]

theorem updA_of_lookupA_none {α : Type} (k : String) (v : α) (l : List (String × α))
    (h : lookupA k l = none) : updA k v l = l ++ [(k, v)] := by
  induction l with
  | nil => simp [updA]
  | cons p rest ih =>
      by_cases hk : p.1 = k
      · simp [lookupA, hk] at h
      · simp [lookupA, hk] at h
        simp [updA, hk, ih h]

theorem countKey_of_lookupA_none {α : Type} (k : String) (l : List (String × α))
    (h : lookupA k l = none) : countKey k l = 0 := by
  induction l with
  | nil => simp [countKey]
  | cons p rest ih =>
      by_cases hk : p.1 = k
      · simp [lookupA, hk] at h
      · simp [lookupA, hk] at h
        simpa [countKey, hk] using ih h

theorem countKey_append {α : Type} (k : String) (l₁ l₂ : List (String × α)) :
    countKey k (l₁ ++ l₂) = countKey k l₁ + countKey k l₂ := by
  simp [countKey, List.filter_append]

/-! ## Source data model (MISP input records) -/

/-- One MISP attribute, as consumed by the translator: the fields of the JSON
record that the embedded methods read.  `attrType` embeds the JSON field
`type`. -/
structure MispAttribute where
  attrType : String
  object_relation : String
  value : String
  to_ids : Bool
  deriving Repr, DecidableEq

/-- One `ObjectReference` record of a MISP object: `relationship_type`,
`referenced_uuid`, and the referenced object's declared name
(`reference['Object']['name']`). -/
structure ObjectReference where
  relationship_type : String
  referenced_uuid : String
  referencedObjectName : String
  deriving Repr, DecidableEq

/-- One MISP object (a composite object: a named bag of attributes plus
explicit references to other objects). -/
structure MispObject where
  name : String
  uuid : String
  attributes : List MispAttribute
  objectReferences : List ObjectReference
  deriving Repr, DecidableEq

/-- One MISP galaxy reference.  `galaxyType` embeds `galaxy.get('type')`,
`clusterUuid` embeds `galaxy['GalaxyCluster'][0]['collection_uuid']` and
`galaxyUuid` embeds `galaxy['uuid']` (used only by
`add_vulnerability_from_galaxy`). -/
structure MispGalaxy where
  galaxyType : String
  clusterUuid : String
  galaxyUuid : String
  deriving Repr, DecidableEq

/-! ## Builder state

`StixBuilder.__init__` (lines 52-56) creates `orgs`, `galaxies`, `ids` and
`custom_objects` once per builder; `StixBuilder.handler` (lines 162-170)
creates `SDOs`, `object_refs`, `links`, `markings` and `relationships` anew
for every Event it translates.  `fresh` models the process's supply of
`uuid.uuid4()` draws (never reset). -/

structure BuilderState where
  orgs : List String
  galaxies : List String
  ids : List (String × String)
  customObjects : List String
  SDOs : List String
  objectRefs : List String
  links : List String
  markings : List (String × String)
  relationshipsDefined : List (String × String)
  relationshipsToDefine : List (String × List (String × String))
  fresh : Nat
  deriving Repr, DecidableEq

/-- `StixBuilder.__init__` (lines 52-56): the builder starts with empty
`orgs`, `galaxies`, `ids` and `custom_objects` (the per-Event fields do not
exist yet; the embedding starts them empty as well). -/
def initBuilder : BuilderState :=
  { orgs := [], galaxies := [], ids := [], customObjects := [],
    SDOs := [], objectRefs := [], links := [], markings := [],
    relationshipsDefined := [], relationshipsToDefine := [], fresh := 0 }

/-- The state-resetting prologue of `StixBuilder.handler` (lines 163-170),
run when the translation of a new Event begins: it re-creates `SDOs`,
`object_refs`, `links`, `markings` and `relationships` and touches nothing
else — in particular it leaves `ids`, `galaxies`, `custom_objects` and
`orgs` as the previous Events left them. -/
def handlerReset (s : BuilderState) : BuilderState :=
  { s with SDOs := [], objectRefs := [], links := [], markings := [],
           relationshipsDefined := [], relationshipsToDefine := [] }

/-- `StixBuilder.append_object` (lines 715-720): the produced object's id is
`objType ++ "--" ++ objUuid`; it is appended to `SDOs` and `object_refs`,
and when `idMapping` is true the pair is recorded in the Identifier
Registry `ids` (the Python code recovers `(objType, objUuid)` by splitting
the id on `"--"`). -/
def appendObject (objType objUuid : String) (idMapping : Bool) (s : BuilderState) :
    BuilderState :=
  let sid := objType ++ "--" ++ objUuid
  let s1 := { s with SDOs := s.SDOs ++ [sid], objectRefs := s.objectRefs ++ [sid] }
  if idMapping then { s1 with ids := updA objUuid objType s1.ids } else s1

/-! ## Galaxy / cluster resolver -/

/-- The galaxy family lists of `misp2stix2.py` (lines 36-46). -/
def attack_pattern_galaxies_list : List String :=
  ["mitre-attack-pattern", "mitre-enterprise-attack-attack-pattern",
   "mitre-mobile-attack-attack-pattern", "mitre-pre-attack-attack-pattern"]

def course_of_action_galaxies_list : List String :=
  ["mitre-course-of-action", "mitre-enterprise-attack-course-of-action",
   "mitre-mobile-attack-course-of-action"]

def intrusion_set_galaxies_list : List String :=
  ["mitre-enterprise-attack-intrusion-set", "mitre-mobile-attack-intrusion-set",
   "mitre-pre-attack-intrusion-set", "mitre-intrusion-set"]

def malware_galaxies_list : List String :=
  ["android", "banker", "stealer", "backdoor", "ransomware", "mitre-malware",
   "mitre-enterprise-attack-malware", "mitre-mobile-attack-malware"]

def threat_actor_galaxies_list : List String :=
  ["threat-actor", "microsoft-activity-group"]

def tool_galaxies_list : List String :=
  ["botnet", "rat", "exploit-kit", "tds", "tool", "mitre-tool",
   "mitre-enterprise-attack-tool", "mitre-mobile-attack-tool"]

/-- `StixBuilder.load_galaxy_mapping` (lines 231-238): the static family →
(target kind, builder method) table. -/
def galaxies_mapping : List (String × (String × String)) :=
  [("branded-vulnerability", ("vulnerability", "add_vulnerability_from_galaxy"))]
  ++ attack_pattern_galaxies_list.map (fun k => (k, ("attack-pattern", "add_attack_pattern")))
  ++ course_of_action_galaxies_list.map (fun k => (k, ("course-of-action", "add_course_of_action")))
  ++ intrusion_set_galaxies_list.map (fun k => (k, ("intrusion-set", "add_intrusion_set")))
  ++ malware_galaxies_list.map (fun k => (k, ("malware", "add_malware")))
  ++ threat_actor_galaxies_list.map (fun k => (k, ("threat-actor", "add_threat_actor")))
  ++ tool_galaxies_list.map (fun k => (k, ("tool", "add_tool")))

/-- The dispatch `getattr(self, to_call)(galaxy)` of `parse_galaxy` (line 394):
every target of the table (`add_attack_pattern`, `add_course_of_action`,
`add_intrusion_set`, `add_malware`, `add_threat_actor`, `add_tool`) builds
one SDO through `generate_galaxy_args` with id `stix_type ++ "--" ++
cluster collection_uuid` and appends it via `append_object`;
`add_vulnerability_from_galaxy` builds one Vulnerability with id
`"vulnerability--" ++ galaxy uuid` instead. -/
def galaxyDispatch (to_call stix_type : String) (g : MispGalaxy) (s : BuilderState) :
    BuilderState :=
  if to_call = "add_vulnerability_from_galaxy" then
    appendObject "vulnerability" g.galaxyUuid true s
  else
    appendObject stix_type g.clusterUuid true s

/-- `StixBuilder.parse_galaxy` (lines 386-396): look the galaxy's family up in
`galaxies_mapping` (unknown families return with no effect); if the cluster
identifier has not been seen, build the target object and mark it seen;
in every case record one defined relationship edge from `source_id` to the
cluster's synthetic id. -/
def parseGalaxy (g : MispGalaxy) (source_id : String) (s : BuilderState) : BuilderState :=
  match lookupA g.galaxyType galaxies_mapping with
  | none => s
  | some (stix_type, to_call) =>
      let s1 :=
        if g.clusterUuid ∈ s.galaxies then s
        else
          let s' := galaxyDispatch to_call stix_type g s
          { s' with galaxies := s'.galaxies ++ [g.clusterUuid] }
      { s1 with relationshipsDefined :=
          s1.relationshipsDefined ++ [(source_id, stix_type ++ "--" ++ g.clusterUuid)] }

/-! ## Claim C1 -/

/-- The galaxy used in the C1 counterexample: family `"tool"` is a known
taxonomy family (member of `tool_galaxies_list`). -/
def c1Galaxy : MispGalaxy :=
  { galaxyType := "tool", clusterUuid := "c-uuid-1", galaxyUuid := "g-uuid-1" }

/-- Claim C1 is false on the code: translating an Event that references galaxy
cluster `c-uuid-1` populates the galaxy-seen set and the Identifier
Registry, and when the translation of the next Event begins
(`handlerReset`), both entries are still visible — the caches created while
translating one Event leak into the next.  Here `handlerReset initBuilder`
is the state at the start of Event 1, `parseGalaxy` translates Event 1's
galaxy reference, and the outer `handlerReset` starts Event 2. -/
theorem c1_cache_reset_counterexample :
    (handlerReset (parseGalaxy c1Galaxy "report--r1" (handlerReset initBuilder))).galaxies
        = ["c-uuid-1"]
    ∧ (handlerReset (parseGalaxy c1Galaxy "report--r1" (handlerReset initBuilder))).ids
        = [("c-uuid-1", "tool")] := by
  constructor <;> rfl

/-- Claim C1 amended: when the translation of a new Event begins, only the
per-Event fields are re-created — the marking cache (together with `SDOs`,
`object_refs`, `links` and the relationship stores) is reset, while the
Identifier Registry, the galaxy-seen set and the custom-wrapper-kind cache
are created once per builder and persist unchanged across Events. -/
theorem c1_cache_reset_amended (s : BuilderState) :
    (handlerReset s).markings = []
    ∧ (handlerReset s).SDOs = []
    ∧ (handlerReset s).objectRefs = []
    ∧ (handlerReset s).links = []
    ∧ (handlerReset s).relationshipsDefined = []
    ∧ (handlerReset s).relationshipsToDefine = []
    ∧ (handlerReset s).ids = s.ids
    ∧ (handlerReset s).galaxies = s.galaxies
    ∧ (handlerReset s).customObjects = s.customObjects := by
  repeat' constructor

/-! ## Claim C3 -/

theorem appendObject_SDOs (t u : String) (b : Bool) (s : BuilderState) :
    (appendObject t u b s).SDOs = s.SDOs ++ [t ++ "--" ++ u] := by
  cases b <;> simp [appendObject]

theorem appendObject_galaxies (t u : String) (b : Bool) (s : BuilderState) :
    (appendObject t u b s).galaxies = s.galaxies := by
  cases b <;> simp [appendObject]

theorem appendObject_relationshipsDefined (t u : String) (b : Bool) (s : BuilderState) :
    (appendObject t u b s).relationshipsDefined = s.relationshipsDefined := by
  cases b <;> simp [appendObject]

theorem galaxyDispatch_SDOs_length (tc st : String) (g : MispGalaxy) (s : BuilderState) :
    (galaxyDispatch tc st g s).SDOs.length = s.SDOs.length + 1 := by
  by_cases h : tc = "add_vulnerability_from_galaxy" <;>
    simp [galaxyDispatch, h, appendObject_SDOs]

theorem galaxyDispatch_galaxies (tc st : String) (g : MispGalaxy) (s : BuilderState) :
    (galaxyDispatch tc st g s).galaxies = s.galaxies := by
  by_cases h : tc = "add_vulnerability_from_galaxy" <;>
    simp [galaxyDispatch, h, appendObject_galaxies]

theorem galaxyDispatch_relationshipsDefined (tc st : String) (g : MispGalaxy)
    (s : BuilderState) :
    (galaxyDispatch tc st g s).relationshipsDefined = s.relationshipsDefined := by
  by_cases h : tc = "add_vulnerability_from_galaxy" <;>
    simp [galaxyDispatch, h, appendObject_relationshipsDefined]

/-- Claim C3: within one Event (the cluster identifier unseen when the Event's
first reference is translated), translating two references to the same
galaxy cluster identifier of a known taxonomy family produces exactly one
target object and two relationship edges; the second reference leaves the
produced objects untouched and contributes only an edge. -/
theorem c3_galaxy_idempotence_confirmed (g : MispGalaxy) (src1 src2 : String)
    (s : BuilderState)
    (hknown : (lookupA g.galaxyType galaxies_mapping).isSome = true)
    (hfresh : g.clusterUuid ∉ s.galaxies) :
    (parseGalaxy g src1 s).SDOs.length = s.SDOs.length + 1
    ∧ (parseGalaxy g src2 (parseGalaxy g src1 s)).SDOs = (parseGalaxy g src1 s).SDOs
    ∧ (parseGalaxy g src2 (parseGalaxy g src1 s)).relationshipsDefined.length
        = s.relationshipsDefined.length + 2 := by
  obtain ⟨⟨st, tc⟩, hlk⟩ : ∃ p, lookupA g.galaxyType galaxies_mapping = some p := by
    cases h : lookupA g.galaxyType galaxies_mapping with
    | none => rw [h] at hknown; simp at hknown
    | some p => exact ⟨p, rfl⟩
  have h1 : parseGalaxy g src1 s =
      { galaxyDispatch tc st g s with
        galaxies := (galaxyDispatch tc st g s).galaxies ++ [g.clusterUuid],
        relationshipsDefined := (galaxyDispatch tc st g s).relationshipsDefined
          ++ [(src1, st ++ "--" ++ g.clusterUuid)] } := by
    simp [parseGalaxy, hlk, hfresh]
  have hmem : g.clusterUuid ∈ (parseGalaxy g src1 s).galaxies := by
    rw [h1]
    simp
  set X := parseGalaxy g src1 s with hX
  have h2 : parseGalaxy g src2 X =
      { X with relationshipsDefined := X.relationshipsDefined
          ++ [(src2, st ++ "--" ++ g.clusterUuid)] } := by
    simp [parseGalaxy, hlk, hmem]
  refine ⟨?_, ?_, ?_⟩
  · rw [h1]
    simpa using galaxyDispatch_SDOs_length tc st g s
  · rw [h2]
  · rw [h2, h1]
    simp [galaxyDispatch_relationshipsDefined]

/-- The galaxy used in the C3 witness: family `"mitre-malware"` is a known
taxonomy family (member of `malware_galaxies_list`). -/
def c3Galaxy : MispGalaxy :=
  { galaxyType := "mitre-malware", clusterUuid := "c-uuid-3", galaxyUuid := "g-uuid-3" }

/-- Witness for C3 at a concrete input: a fresh builder translating two
references to cluster `c-uuid-3` of family `mitre-malware`. -/
theorem c3_galaxy_idempotence_witness :
    (parseGalaxy c3Galaxy "report--r" initBuilder).SDOs.length
        = initBuilder.SDOs.length + 1
    ∧ (parseGalaxy c3Galaxy "indicator--a" (parseGalaxy c3Galaxy "report--r" initBuilder)).SDOs
        = (parseGalaxy c3Galaxy "report--r" initBuilder).SDOs
    ∧ (parseGalaxy c3Galaxy "indicator--a"
        (parseGalaxy c3Galaxy "report--r" initBuilder)).relationshipsDefined.length
        = initBuilder.relationshipsDefined.length + 2 :=
  c3_galaxy_idempotence_confirmed c3Galaxy "report--r" "indicator--a" initBuilder
    (by decide) (by decide)

/-! ## Marking resolver -/

/-- Modelled from the spec: the `tlp_markings` table of the absent mapping file
`misp2stix2_mapping.py` — the four fixed traffic-light-protocol tokens,
each naming one of the predefined marking objects `TLP_WHITE`, `TLP_GREEN`,
`TLP_AMBER`, `TLP_RED` of the target object model. -/
def tlp_markings : List (String × String) :=
  [("tlp:white", "TLP_WHITE"), ("tlp:green", "TLP_GREEN"),
   ("tlp:amber", "TLP_AMBER"), ("tlp:red", "TLP_RED")]

/-- The stable id of a predefined TLP marking object (a fixed constant of the
external target object model, one per TLP level). -/
def tlpMarkingId (name : String) : String :=
  "marking-definition--tlp-" ++ name

/-- One draw from the process's `uuid.uuid4()` supply, indexed by how many
draws happened before it. -/
def freshUuid (n : Nat) : String :=
  "uuid4-" ++ toString n

/-- Split a character list at every colon (the embedding of Python's
`str.split(':')`). -/
def splitColonAux : List Char → List Char → List (List Char)
  | [], acc => [acc.reverse]
  | c :: rest, acc =>
      if c = ':' then acc.reverse :: splitColonAux rest []
      else splitColonAux rest (c :: acc)

/-- The embedding of `definition_type, definition = tag.split(':')`
(line 751): succeeds exactly when the tag holds exactly one colon;
otherwise Python raises an uncaught `ValueError`. -/
def pySplitColon (tag : String) : Option (String × String) :=
  match splitColonAux tag.toList [] with
  | [a, b] => some (⟨a⟩, ⟨b⟩)
  | _ => none

/-- `StixBuilder.create_marking` (lines 745-758).  A TLP tag reuses the
predefined marking object and caches it.  Any other tag first draws a fresh
uuid, then splits on the colon (an uncaught `ValueError` — modelled as
`.error` — when the split does not give exactly two parts), and hands the
namespace/predicate pair to the external `MarkingDefinition` constructor
(modelled by the parameter `reject`): a rejected construction returns
`none` without caching anything; an accepted one caches the marking under
the raw tag and returns its id. -/
def createMarking (reject : String → String → Bool) (tag : String) (s : BuilderState) :
    Except String (Option String × BuilderState) :=
  match lookupA tag tlp_markings with
  | some name =>
      let mid := tlpMarkingId name
      .ok (some mid, { s with markings := updA tag mid s.markings })
  | none =>
      let mid := "marking-definition--" ++ freshUuid s.fresh
      let s1 := { s with fresh := s.fresh + 1 }
      match pySplitColon tag with
      | none => .error "ValueError: tag does not split into namespace:predicate"
      | some (definition_type, definition) =>
          if reject definition_type definition then .ok (none, s1)
          else .ok (some mid, { s1 with markings := updA tag mid s1.markings })

/-- `StixBuilder.handle_tags` (lines 798-804): resolve each tag — through the
marking cache when the tag was already resolved in this Event, through
`create_marking` otherwise — and collect the marking ids of the tags that
produced one. -/
def handleTags (reject : String → String → Bool) (tags : List String) (s : BuilderState) :
    Except String (List String × BuilderState) :=
  match tags with
  | [] => .ok ([], s)
  | tag :: rest =>
      let step : Except String (Option String × BuilderState) :=
        match lookupA tag s.markings with
        | some mid => .ok (some mid, s)
        | none => createMarking reject tag s
      match step with
      | .error e => .error e
      | .ok (mid?, s1) =>
          match handleTags reject rest s1 with
          | .error e => .error e
          | .ok (ids, s2) =>
              .ok ((match mid? with | some m => [m] | none => []) ++ ids, s2)

/-- `StixBuilder.add_all_markings` (lines 111-113): every cached marking
object is appended to the Event's output, one per cache entry. -/
def addAllMarkings (s : BuilderState) : List String :=
  s.markings.map (fun p => p.2)

/-! ## Claim C4 -/

/-- Claim C4: a tag that resolves successfully (a TLP token, or a
namespace:predicate tag the target object model accepts) and is new to this
Event yields the same marking id when resolved a second time, and the
Event's marking cache — hence its output via `add_all_markings`, which
emits exactly one marking object per cache entry — holds exactly one
marking for that tag after both resolutions. -/
theorem c4_marking_idempotence_confirmed (reject : String → String → Bool)
    (tag : String) (s : BuilderState)
    (hnew : lookupA tag s.markings = none)
    (hres : (lookupA tag tlp_markings).isSome = true
            ∨ ∃ a b, pySplitColon tag = some (a, b) ∧ reject a b = false) :
    ∃ mid s1 s2,
      handleTags reject [tag] s = .ok ([mid], s1)
      ∧ handleTags reject [tag] s1 = .ok ([mid], s2)
      ∧ countKey tag s1.markings = 1
      ∧ countKey tag s2.markings = 1
      ∧ (addAllMarkings s1).length = s1.markings.length
      ∧ (addAllMarkings s2).length = s2.markings.length := by
  have hcount : ∀ mid : String,
      countKey tag (updA tag mid s.markings) = 1 := by
    intro mid
    rw [updA_of_lookupA_none tag mid s.markings hnew, countKey_append,
        countKey_of_lookupA_none tag s.markings hnew]
    simp [countKey]
  cases htlp : lookupA tag tlp_markings with
  | some name =>
      refine ⟨tlpMarkingId name,
        { s with markings := updA tag (tlpMarkingId name) s.markings },
        { s with markings := updA tag (tlpMarkingId name) s.markings },
        ?_, ?_, ?_, ?_, ?_, ?_⟩
      · simp [handleTags, createMarking, hnew, htlp]
      · simp [handleTags, lookupA_updA_self]
      · exact hcount _
      · exact hcount _
      · simp [addAllMarkings]
      · simp [addAllMarkings]
  | none =>
      rcases hres with htlp' | ⟨a, b, hsplit, hacc⟩
      · rw [htlp] at htlp'; simp at htlp'
      · refine ⟨"marking-definition--" ++ freshUuid s.fresh,
          { s with fresh := s.fresh + 1,
                   markings := updA tag ("marking-definition--" ++ freshUuid s.fresh)
                     s.markings },
          { s with fresh := s.fresh + 1,
                   markings := updA tag ("marking-definition--" ++ freshUuid s.fresh)
                     s.markings },
          ?_, ?_, ?_, ?_, ?_, ?_⟩
        · simp [handleTags, createMarking, hnew, htlp, hsplit, hacc]
        · simp [handleTags, lookupA_updA_self]
        · exact hcount _
        · exact hcount _
        · simp [addAllMarkings]
        · simp [addAllMarkings]

/-- Witness for C4 at a concrete input: the free-form tag
`"misp-galaxy:tool"` resolved twice from a fresh builder, with a
constructor that accepts every non-tlp namespace. -/
theorem c4_marking_idempotence_witness :
    ∃ mid s1 s2,
      handleTags (fun ns _ => ns = "tlp") ["misp-galaxy:tool"] initBuilder
          = .ok ([mid], s1)
      ∧ handleTags (fun ns _ => ns = "tlp") ["misp-galaxy:tool"] s1 = .ok ([mid], s2)
      ∧ countKey "misp-galaxy:tool" s1.markings = 1
      ∧ countKey "misp-galaxy:tool" s2.markings = 1
      ∧ (addAllMarkings s1).length = s1.markings.length
      ∧ (addAllMarkings s2).length = s2.markings.length :=
  c4_marking_idempotence_confirmed (fun ns _ => ns = "tlp") "misp-galaxy:tool"
    initBuilder (by decide)
    (Or.inr ⟨"misp-galaxy", "tool", by decide, by decide⟩)

/-! ## Claim C8 -/

/-- Claim C8: a non-TLP tag that parses as namespace:predicate but whose
marking construction the target object model rejects is skipped silently —
`handle_tags` returns no marking id for it, the marking cache (and hence
the Event's marking output) is unchanged, and no error is raised; the only
trace is the consumed uuid draw. -/
theorem c8_invalid_marking_skip_confirmed (reject : String → String → Bool)
    (tag a b : String) (s : BuilderState)
    (hnew : lookupA tag s.markings = none)
    (htlp : lookupA tag tlp_markings = none)
    (hsplit : pySplitColon tag = some (a, b))
    (hrej : reject a b = true) :
    handleTags reject [tag] s = .ok ([], { s with fresh := s.fresh + 1 })
    ∧ addAllMarkings { s with fresh := s.fresh + 1 } = addAllMarkings s := by
  constructor
  · simp [handleTags, createMarking, hnew, htlp, hsplit, hrej]
  · simp [addAllMarkings]

/-- Witness for C8 at a concrete input: the tag `"statement:secret"` with a
constructor that rejects the `statement` namespace. -/
theorem c8_invalid_marking_skip_witness :
    handleTags (fun ns _ => ns = "statement") ["statement:secret"] initBuilder
        = .ok ([], { initBuilder with fresh := initBuilder.fresh + 1 })
    ∧ addAllMarkings { initBuilder with fresh := initBuilder.fresh + 1 }
        = addAllMarkings initBuilder :=
  c8_invalid_marking_skip_confirmed (fun ns _ => ns = "statement")
    "statement:secret" "statement" "secret" initBuilder
    (by decide) (by decide) (by decide) (by decide)

/-! ## Attribute translator and pattern builder -/

/-- The embedding of Python's `' AND '.join(clauses)` (line 302 and
line 647). -/
def joinAnd : List String → String
  | [] => ""
  | [c] => c
  | c :: rest => c ++ " AND " ++ joinAnd rest

/-- The bracket wrapping of `add_object_indicator` (line 647) and
`resolve_objects2parse` (line 302): the clauses joined by `" AND "` and the
whole expression wrapped in one bracket pair. -/
def buildPattern (clauses : List String) : String :=
  "[" ++ joinAnd clauses ++ "]"

/-- Modelled from the spec: one comparison clause of a pattern expression,
`<target-path> = '<value>'`, as produced by the per-type templates of the
absent mapping file `misp2stix2_mapping.py` (`mispTypesMapping[...]['pattern']`). -/
def mispTypePatternClause (path value : String) : String :=
  path ++ " = '" ++ value ++ "'"

/-- Modelled from the spec: a whole attribute pattern — every mapped
(path, value) pair becomes one clause, the clauses are joined with
`" AND "`, and the expression is wrapped in one bracket pair. -/
def mispTypePattern (fields : List (String × String)) : String :=
  buildPattern (fields.map (fun p => mispTypePatternClause p.1 p.2))

/-- The outcome of translating one attribute through `handle_usual_type`
without falling back to the custom wrapper. -/
inductive AttributeOutcome where
  | indicator (pattern : String)
  | observedData
  deriving Repr, DecidableEq

/-- `StixBuilder.handle_usual_type` (lines 252-259), non-exception path: an
attribute with `to_ids` set becomes an Indicator (`add_indicator`, whose
pattern is the type's pattern expression over its mapped fields), any other
attribute becomes ObservedData (`add_observed_data`). -/
def handle_usual_type (to_ids : Bool) (fields : List (String × String)) :
    AttributeOutcome :=
  if to_ids then .indicator (mispTypePattern fields) else .observedData

theorem append_ne_empty_left (c d : String) (h : c ≠ "") : c ++ d ≠ "" := by
  intro h2
  have h3 := congrArg String.length h2
  simp [String.length_append] at h3
  have hd : c.data = [] := List.length_eq_zero.mp h3.1
  exact h (String.ext (by simpa using hd))

theorem mispTypePatternClause_ne_empty (p v : String) :
    mispTypePatternClause p v ≠ "" := by
  intro h
  have h2 := congrArg String.length h
  simp [mispTypePatternClause, String.length_append] at h2
  exact absurd h2.1.1.2 (by decide)

theorem joinAnd_ne_empty (c : String) (rest : List String) (hc : c ≠ "") :
    joinAnd (c :: rest) ≠ "" := by
  cases rest with
  | nil => simpa [joinAnd] using hc
  | cons d more =>
      show c ++ " AND " ++ joinAnd (d :: more) ≠ ""
      exact append_ne_empty_left _ _ (append_ne_empty_left _ _ hc)

/-! ## Claim C2 -/

/-- Claim C2: an attribute of a mapped type, translated without the custom
fallback, becomes ObservedData when `to_ids` is false; when `to_ids` is
true it becomes an Indicator whose pattern is non-empty, wrapped in exactly
one outer bracket pair around a non-empty body, the body being the mapped
comparison clauses joined by `" AND "`. -/
theorem c2_attribute_dispatch_confirmed (to_ids : Bool)
    (fields : List (String × String)) (hne : fields ≠ []) :
    (to_ids = false → handle_usual_type to_ids fields = .observedData)
    ∧ (to_ids = true → ∃ body,
        handle_usual_type to_ids fields = .indicator ("[" ++ body ++ "]")
        ∧ body = joinAnd (fields.map (fun p => mispTypePatternClause p.1 p.2))
        ∧ body ≠ ""
        ∧ "[" ++ body ++ "]" ≠ "") := by
  constructor
  · intro h
    simp [handle_usual_type, h]
  · intro h
    refine ⟨joinAnd (fields.map (fun p => mispTypePatternClause p.1 p.2)),
      ?_, rfl, ?_, ?_⟩
    · simp [handle_usual_type, h, mispTypePattern, buildPattern]
    · cases fields with
      | nil => exact absurd rfl hne
      | cons f rest =>
          exact joinAnd_ne_empty _ _ (mispTypePatternClause_ne_empty f.1 f.2)
    · exact append_ne_empty_left _ "]" (append_ne_empty_left "[" _ (by decide))

/-- Witness for C2 at concrete inputs: a `domain` attribute, with `to_ids`
false and with `to_ids` true. -/
theorem c2_attribute_dispatch_witness :
    (handle_usual_type false [("domain-name:value", "evil.example")]
        = AttributeOutcome.observedData)
    ∧ ∃ body,
        handle_usual_type true [("domain-name:value", "evil.example")]
          = .indicator ("[" ++ body ++ "]")
        ∧ body = joinAnd ([("domain-name:value", "evil.example")].map
            (fun p => mispTypePatternClause p.1 p.2))
        ∧ body ≠ ""
        ∧ "[" ++ body ++ "]" ≠ "" :=
  ⟨(c2_attribute_dispatch_confirmed false [("domain-name:value", "evil.example")]
      (by decide)).1 rfl,
   (c2_attribute_dispatch_confirmed true [("domain-name:value", "evil.example")]
      (by decide)).2 rfl⟩

/-! ## Composite object translator: the to-ids decision -/

/-- `StixBuilder.fetch_ids_flag` (lines 791-796): true as soon as one
attribute of the object carries `to_ids`. -/
def fetch_ids_flag (attributes : List MispAttribute) : Bool :=
  attributes.any (fun a => a.to_ids)

/-- The test of `handle_usual_object_name` lines 263-265: a reference whose
`relationship_type` is `includes` or `included-in` and whose referenced
object is named `pe`. -/
def isPeReference (r : ObjectReference) : Bool :=
  (r.relationship_type = "includes" || r.relationship_type = "included-in")
    && r.referencedObjectName = "pe"

/-- Whether a `file` object is deferred to the two-pass join: some reference
of the object is a `pe` reference (lines 263-267). -/
def hasPeReference (o : MispObject) : Bool :=
  o.objectReferences.any isPeReference

/-- The outcome of translating one composite object through
`handle_usual_object_name` without the custom fallback: an Indicator, an
ObservedData, or deferral into `objects_to_parse` for the second pass. -/
inductive ObjectOutcome where
  | indicator
  | observedData
  | deferred
  deriving Repr, DecidableEq

/-- `StixBuilder.handle_usual_object_name` (lines 261-274), non-exception
path: a `file` object holding a `pe` reference is deferred; otherwise the
object becomes an Indicator when `to_ids` is set **or the object is named
`stix2-pattern`**, and ObservedData otherwise. -/
def handle_usual_object_name (o : MispObject) (to_ids : Bool) : ObjectOutcome :=
  if o.name = "file" && hasPeReference o then .deferred
  else if to_ids || o.name = "stix2-pattern" then .indicator
  else .observedData

/-- The merge decision of `resolve_objects2parse` (lines 286-299):
`to_ids_list = [file, pe, sections...]`, translated as Indicator exactly
when `True in to_ids_list`. -/
def mergedToIds (to_ids_file to_ids_pe : Bool) (sectionFlags : List Bool) : Bool :=
  (to_ids_file :: to_ids_pe :: sectionFlags).any (fun b => b)

/-! ## Claim C5 -/

/-- The concrete object refuting C5 as stated: a `stix2-pattern` object whose
single attribute has `to_ids = false`. -/
def c5Stix2PatternObject : MispObject :=
  { name := "stix2-pattern",
    uuid := "o-uuid-5",
    attributes := [{ attrType := "stix2-pattern", object_relation := "stix2-pattern",
                     value := "[ipv4-addr:value = '8.8.8.8']", to_ids := false }],
    objectReferences := [] }

/-- Claim C5 is false as stated: for a `stix2-pattern` object none of whose
attributes has `to_ids`, the whole-object OR is false, yet
`handle_usual_object_name` translates the object as an Indicator, not as
ObservedData. -/
theorem c5_to_ids_or_counterexample :
    fetch_ids_flag c5Stix2PatternObject.attributes = false
    ∧ handle_usual_object_name c5Stix2PatternObject
        (fetch_ids_flag c5Stix2PatternObject.attributes) = ObjectOutcome.indicator
    ∧ handle_usual_object_name c5Stix2PatternObject
        (fetch_ids_flag c5Stix2PatternObject.attributes) ≠ ObjectOutcome.observedData := by
  refine ⟨rfl, rfl, ?_⟩
  decide

/-- Claim C5 amended: for every composite object that is not deferred to the
file/pe join, the whole-object decision is the OR of its attributes'
`to_ids` flags **except that an object named `stix2-pattern` is always
translated as an Indicator**; and for the joined
file/embedded-executable/section family the decision is the OR across the
file object, the embedded-executable object and every resolved section. -/
theorem c5_to_ids_or_amended :
    (∀ o : MispObject, (o.name = "file" && hasPeReference o) = false →
      (handle_usual_object_name o (fetch_ids_flag o.attributes) = ObjectOutcome.indicator
        ↔ (∃ a ∈ o.attributes, a.to_ids = true) ∨ o.name = "stix2-pattern")
      ∧ (handle_usual_object_name o (fetch_ids_flag o.attributes) = ObjectOutcome.observedData
        ↔ ¬((∃ a ∈ o.attributes, a.to_ids = true) ∨ o.name = "stix2-pattern")))
    ∧ (∀ (f p : Bool) (sections : List Bool),
        mergedToIds f p sections = true ↔ f = true ∨ p = true ∨ ∃ b ∈ sections, b = true) := by
  constructor
  · intro o hnd
    have hids : fetch_ids_flag o.attributes = true ↔ ∃ a ∈ o.attributes, a.to_ids = true := by
      simp [fetch_ids_flag, List.any_eq_true]
    by_cases hs : o.name = "stix2-pattern"
    · constructor
      · simp [handle_usual_object_name, hnd, hs]
      · simp [handle_usual_object_name, hnd, hs]
    · by_cases hf : fetch_ids_flag o.attributes = true
      · constructor
        · simp [handle_usual_object_name, hnd, hf, hids.mp hf]
        · simp [handle_usual_object_name, hnd, hf, hids.mp hf]
      · have hnf : ¬∃ a ∈ o.attributes, a.to_ids = true := fun hc => hf (hids.mpr hc)
        rw [Bool.not_eq_true] at hf
        constructor
        · simp [handle_usual_object_name, hnd, hf, hs, hnf]
        · simp [handle_usual_object_name, hnd, hf, hs, hnf]
  · intro f p sections
    simp [mergedToIds, List.any_eq_true]

/-- Witness for C5's amended statement at a concrete input: a `domain-ip`
object with one `to_ids` attribute is translated as an Indicator. -/
theorem c5_to_ids_or_witness :
    handle_usual_object_name
      { name := "domain-ip", uuid := "o-uuid-5w",
        attributes := [{ attrType := "domain", object_relation := "domain",
                         value := "evil.example", to_ids := true }],
        objectReferences := [] }
      (fetch_ids_flag [{ attrType := "domain", object_relation := "domain",
                         value := "evil.example", to_ids := true }])
      = ObjectOutcome.indicator :=
  ((c5_to_ids_or_amended.1
      { name := "domain-ip", uuid := "o-uuid-5w",
        attributes := [{ attrType := "domain", object_relation := "domain",
                         value := "evil.example", to_ids := true }],
        objectReferences := [] }
      (by decide)).1).mpr
    (Or.inl ⟨{ attrType := "domain", object_relation := "domain",
               value := "evil.example", to_ids := true }, by simp, rfl⟩)

/-! ## Composite resolver: windows-pebinary extension -/

/-- `StixBuilder.parse_pe_extensions_observable` (lines 329-353), restricted
to the fields the section-count invariant is about.  `declaredCount` is the
integer reading (`int(...)`, line 351) of the `number_of_sections` value
the attribute loop put into the extension through the `peMapping` table of
the absent mapping file; it is `none` when the pe object declares no
section count, in which case the extension entry is the `defaultdict`'s
empty list and `int([])` raises an uncaught `TypeError` (modelled as
`.error`).  `numSections` is `len(sections)`, the number of resolved
`pe-section` objects; lines 351-352 override a declared count that
disagrees with it.  The result pairs the `pe_type` field with the final
value of `number_of_sections`. -/
def parse_pe_extensions_observable (declaredCount : Option Int) (pe_type : String)
    (numSections : Nat) : Except String (String × Int) :=
  match declaredCount with
  | none => .error "TypeError: int() of the defaultdict empty entry"
  | some d =>
      if (numSections : Int) ≠ d then .ok (pe_type, (numSections : Int))
      else .ok (pe_type, d)

/-! ## Claim C6 -/

/-- Claim C6: for every merged file/embedded-executable/section family
translated as ObservedData whose embedded-executable object declares some
section count, the emitted `number_of_sections` equals the actual number of
resolved sections — in particular with two resolved sections it is `2`
even against a conflicting declared count of `5`, the resolved count
overriding the declared value. -/
theorem c6_section_count_confirmed :
    (∀ (d : Int) (pe_type : String) (numSections : Nat),
      parse_pe_extensions_observable (some d) pe_type numSections
        = .ok (pe_type, (numSections : Int)))
    ∧ parse_pe_extensions_observable (some 5) "exe" 2 = .ok ("exe", 2) := by
  constructor
  · intro d pe_type numSections
    by_cases h : (numSections : Int) = d
    · simp [parse_pe_extensions_observable, h]
    · simp [parse_pe_extensions_observable, h]
  · rfl

/-! ## Relationship builder -/

/-- The embedding of Python's `str.strip()` (line 139): remove leading and
trailing whitespace. -/
def pyStrip (s : String) : String :=
  ⟨((s.toList.dropWhile Char.isWhitespace).reverse.dropWhile Char.isWhitespace).reverse⟩

/-- The body of the to-define loop of `add_all_relationships` for one
reference (lines 131-140): resolve both raw source identifiers through the
Identifier Registry; a missing endpoint raises `KeyError`, caught by
`continue` — no edge and no error; with both endpoints resolved, exactly
one Relationship `(source_ref, target_ref, relationship_type)` is emitted,
its label the relationship-type text with surrounding whitespace
stripped. -/
def relationshipsForReference (ids : List (String × String)) (source_uuid : String)
    (reference : String × String) : List (String × String × String) :=
  match lookupA source_uuid ids, lookupA reference.1 ids with
  | some source_type, some target_type =>
      [(source_type ++ "--" ++ source_uuid,
        target_type ++ "--" ++ reference.1, pyStrip reference.2)]
  | _, _ => []

/-- The to-define half of `StixBuilder.add_all_relationships`
(lines 130-140): every reference of every source contributes its resolved
edges, in order. -/
def addToDefineRelationships (ids : List (String × String))
    (toDefine : List (String × List (String × String))) :
    List (String × String × String) :=
  toDefine.flatMap (fun p => p.2.flatMap (fun r => relationshipsForReference ids p.1 r))

/-! ## Claim C7 -/

/-- Claim C7: a to-define reference with an unresolved endpoint contributes
no edge and raises no error; a reference with both endpoints in the
Identifier Registry contributes exactly one edge whose label is the
relationship-type text trimmed of surrounding whitespace; and the full
edge list is exactly the concatenation of the per-reference results. -/
theorem c7_relationship_resolution_confirmed :
    (∀ (ids : List (String × String)) (source_uuid target_uuid rel st tt : String),
      lookupA source_uuid ids = some st → lookupA target_uuid ids = some tt →
      relationshipsForReference ids source_uuid (target_uuid, rel)
        = [(st ++ "--" ++ source_uuid, tt ++ "--" ++ target_uuid, pyStrip rel)])
    ∧ (∀ (ids : List (String × String)) (source_uuid target_uuid rel : String),
      lookupA source_uuid ids = none ∨ lookupA target_uuid ids = none →
      relationshipsForReference ids source_uuid (target_uuid, rel) = [])
    ∧ (∀ (ids : List (String × String)) (source_uuid target_uuid rel : String),
      addToDefineRelationships ids [(source_uuid, [(target_uuid, rel)])]
        = relationshipsForReference ids source_uuid (target_uuid, rel)) := by
  refine ⟨?_, ?_, ?_⟩
  · intro ids source_uuid target_uuid rel st tt h1 h2
    simp [relationshipsForReference, h1, h2]
  · intro ids source_uuid target_uuid rel h
    rcases h with h | h
    · simp [relationshipsForReference, h]
    · cases h1 : lookupA source_uuid ids <;> simp [relationshipsForReference, h1, h]
  · intro ids source_uuid target_uuid rel
    simp [addToDefineRelationships]

/-- Witness for C7 at concrete inputs: one reference whose target `u-gone`
was never produced is dropped without error, and one fully resolved
reference with label `" includes "` yields exactly one trimmed edge. -/
theorem c7_relationship_resolution_witness :
    relationshipsForReference [("u1", "indicator")] "u1" ("u-gone", "derived-from") = []
    ∧ relationshipsForReference [("u1", "indicator"), ("u2", "observed-data")]
        "u1" ("u2", " includes ")
        = [("indicator--u1", "observed-data--u2", pyStrip " includes ")]
    ∧ pyStrip " includes " = "includes" :=
  ⟨c7_relationship_resolution_confirmed.2.1 [("u1", "indicator")] "u1" "u-gone"
      "derived-from" (Or.inr (by decide)),
   c7_relationship_resolution_confirmed.1 [("u1", "indicator"), ("u2", "observed-data")]
      "u1" "u2" " includes " "indicator" "observed-data" (by decide) (by decide),
   by decide⟩

/-! ## File object translator: directory / path handling -/

/-- Append one value under its key, keeping first-appearance key order: the
`defaultdict(list)` accumulation of `create_file_attributes_dict`. -/
def appendValueA (k v : String) :
    List (String × List String) → List (String × List String)
  | [] => [(k, [v])]
  | (k', vs) :: rest =>
      if k' = k then (k', vs ++ [v]) :: rest else (k', vs) :: appendValueA k v rest

/-- `StixBuilder.create_file_attributes_dict` (lines 1501-1507): group the
attribute values by `object_relation`.  (The Python code then collapses a
single value of a key outside `('filename', 'path', 'fullpath')` from a
one-element list to a bare value — a representation change only, elided
here; `_parse_attribute`'s attachment/malware-sample data suffixing is
likewise independent of path handling.) -/
def create_file_attributes_dict (attributes : List MispAttribute) :
    List (String × List String) :=
  attributes.foldl (fun acc a => appendValueA a.object_relation a.value acc) []

/-- The fixed path constant the source writes over every file object's `path`
values (line 1023 and line 1069). -/
def debugPath : String := "/home/chrisr3d/git/"

/-- The fixed path constant the source writes over every file object's
`fullpath` values (line 1023 and line 1069). -/
def debugFullpath : String := "/home/chrisr3d/git/MISP/cleanMISP/app/files/scripts/stix2"

/-- Line 1023 / line 1069:
`attributes_dict.update({'path': [debugPath], 'fullpath': [debugFullpath]})` —
whatever `path`/`fullpath` values the input record carried are overwritten
by the two fixed constants before any output is built. -/
def updateWithDebugPaths (d : List (String × List String)) :
    List (String × List String) :=
  updA "fullpath" [debugFullpath] (updA "path" [debugPath] d)

/-- The directory-node outputs of `resolve_file_observable`
(lines 1017-1063): the paths of the emitted `directory` observable nodes
and the `x_misp_multiple_fullpath(s)` custom fields. -/
structure FilePathNodes where
  directoryPaths : List String
  x_misp_multiple_fullpath : Option String
  x_misp_multiple_fullpaths : Option (List String)
  deriving Repr, DecidableEq

/-- The directory/path portion of `StixBuilder.resolve_file_observable`
(lines 1017-1063): after the debug-path update, a `path` entry emits one
`directory` node holding `attributes_dict['path'][0]` and sets the file's
`parent_directory_ref`; a `fullpath` entry then (the ref being set) goes
through `_handle_multiple_file_fields_observable` into an
`x_misp_multiple_fullpath` field.  (Lines 1038-1039 and 1045-1046, which
would handle a second `path` value, reference a misspelled variable
`file_obsevrable` and are dead after the update leaves exactly one value;
the hash/filename fields run through the absent `fileMapping` table and
touch no directory node.) -/
def resolve_file_observable_paths (attributes : List MispAttribute) : FilePathNodes :=
  let d := updateWithDebugPaths (create_file_attributes_dict attributes)
  match lookupA "path" d with
  | some pvals =>
      let base : FilePathNodes :=
        { directoryPaths := [pvals.headD ""],
          x_misp_multiple_fullpath := none, x_misp_multiple_fullpaths := none }
      (match lookupA "fullpath" d with
       | some fvals =>
           if fvals.length > 1 then { base with x_misp_multiple_fullpaths := some fvals }
           else { base with x_misp_multiple_fullpath := some (fvals.headD "") }
       | none => base)
  | none =>
      match lookupA "fullpath" d with
      | some fvals =>
          { directoryPaths := [fvals.headD ""],
            x_misp_multiple_fullpath := none, x_misp_multiple_fullpaths := none }
      | none =>
          { directoryPaths := [],
            x_misp_multiple_fullpath := none, x_misp_multiple_fullpaths := none }

/-- `StixBuilder._handle_multiple_file_fields_pattern` (lines 1516-1521): one
clause `file:<feature> = '<value>'` per value. -/
def handleMultipleFileFieldsPattern (values : List String) (feature : String) :
    List String :=
  if values.length > 1 then
    values.map (fun v => "file:" ++ feature ++ " = '" ++ v ++ "'")
  else ["file:" ++ feature ++ " = '" ++ values.headD "" ++ "'"]

/-- The parent-directory clauses of `StixBuilder.resolve_file_pattern`
(lines 1065-1079): after the debug-path update, the `path` and `fullpath`
entries each contribute `file:parent_directory_ref.path = '...'`
clauses. -/
def resolve_file_pattern_path_clauses (attributes : List MispAttribute) : List String :=
  let d := updateWithDebugPaths (create_file_attributes_dict attributes)
  (match lookupA "path" d with
   | some vals => handleMultipleFileFieldsPattern vals "parent_directory_ref.path"
   | none => [])
  ++ (match lookupA "fullpath" d with
      | some vals => handleMultipleFileFieldsPattern vals "parent_directory_ref.path"
      | none => [])

/-! ## Claim C9 -/

/-- The input of the C9 failing case: a file object whose `path` attribute
carries the event-derived value `/tmp/evil`. -/
def c9InputAttribute : MispAttribute :=
  { attrType := "text", object_relation := "path", value := "/tmp/evil", to_ids := false }

/-- Claim C9 describes the intended behaviour; the code violates it: for a
file object whose `path` attribute is `/tmp/evil`, the observable builder
emits the fixed debug constant `/home/chrisr3d/git/` as the parent
directory (not the record's value), and the pattern builder emits
`parent_directory_ref.path` clauses for both fixed debug constants —
the input record's path value appears nowhere. -/
theorem c9_debug_path_theorem :
    (resolve_file_observable_paths [c9InputAttribute]).directoryPaths = [debugPath]
    ∧ (resolve_file_observable_paths [c9InputAttribute]).directoryPaths ≠ ["/tmp/evil"]
    ∧ debugPath ≠ "/tmp/evil"
    ∧ resolve_file_pattern_path_clauses [c9InputAttribute]
        = ["file:parent_directory_ref.path = '" ++ debugPath ++ "'",
           "file:parent_directory_ref.path = '" ++ debugFullpath ++ "'"] := by
  refine ⟨rfl, by decide, by decide, rfl⟩

/-! ## Claim C10 -/

/-- One iteration of the Object loop of `StixBuilder.handler`
(lines 178-190), parameterized by the dispatch
`getattr(self, objectsMapping[name]['to_call'])(misp_object, to_ids)`
together with its `KeyError` fallback `add_object_custom` (both folded
into `dispatch`): an object named `original-imported-file` is skipped
wholesale (`continue`, lines 182-183) before the to-ids computation, the
dispatch and the reference registration; any other object is dispatched
and, when it carries references, has them recorded as to-define edges
under its uuid. -/
def handlerObjectStep (dispatch : BuilderState → MispObject → Bool → BuilderState)
    (s : BuilderState) (o : MispObject) : BuilderState :=
  if o.name = "original-imported-file" then s
  else
    let to_ids := fetch_ids_flag o.attributes
    let s1 := dispatch s o to_ids
    if o.objectReferences.isEmpty then s1
    else
      let refs := o.objectReferences.map (fun r => (r.referenced_uuid, r.relationship_type))
      { s1 with relationshipsToDefine := updA o.uuid refs s1.relationshipsToDefine }

/-- Claim C10: for every dispatch behaviour and every state, an object named
`original-imported-file` leaves the translation state untouched — no
produced object, no Identifier Registry entry, no to-define edge record,
nothing at all. -/
theorem c10_original_imported_file_confirmed
    (dispatch : BuilderState → MispObject → Bool → BuilderState)
    (s : BuilderState) (o : MispObject)
    (h : o.name = "original-imported-file") :
    handlerObjectStep dispatch s o = s
    ∧ (handlerObjectStep dispatch s o).SDOs = s.SDOs
    ∧ (handlerObjectStep dispatch s o).ids = s.ids
    ∧ (handlerObjectStep dispatch s o).relationshipsToDefine = s.relationshipsToDefine := by
  have hstep : handlerObjectStep dispatch s o = s := by
    simp [handlerObjectStep, h]
  exact ⟨hstep, by rw [hstep], by rw [hstep], by rw [hstep]⟩

/-- Witness for C10 at a concrete input: an `original-imported-file` object
with an attribute and an outgoing reference, against a dispatch that would
otherwise append an object. -/
theorem c10_original_imported_file_witness :
    handlerObjectStep (fun s o _ => appendObject "observed-data" o.uuid true s)
      initBuilder
      { name := "original-imported-file", uuid := "o-uuid-10",
        attributes := [{ attrType := "attachment", object_relation := "imported-sample",
                         value := "evil.zip", to_ids := true }],
        objectReferences := [{ relationship_type := "describes",
                               referenced_uuid := "u-other",
                               referencedObjectName := "file" }] }
      = initBuilder :=
  (c10_original_imported_file_confirmed
    (fun s o _ => appendObject "observed-data" o.uuid true s)
    initBuilder
    { name := "original-imported-file", uuid := "o-uuid-10",
      attributes := [{ attrType := "attachment", object_relation := "imported-sample",
                       value := "evil.zip", to_ids := true }],
      objectReferences := [{ relationship_type := "describes",
                             referenced_uuid := "u-other",
                             referencedObjectName := "file" }] }
    rfl).1

end Misp2Stix2
